import Mathlib

/-!
Verification of the MiniVault generation-and-logging pipeline.

Shallow embedding of the three core components:
* `OllamaService` (src/services/llm_service.py) — backend client:
  `generate_response`, `generate_response_stream`, fallback synthesis.
* `InteractionLogger` (src/services/logging_service.py) —
  `log_interaction`, `get_recent_logs`, `get_log_stats`.
* the `/generate` endpoint orchestration (src/app.py) — complete and
  streaming modes, with the per-request log append.

External effects (HTTP calls, wall clock, file I/O) are modelled by an
explicit `Backend` behaviour record: the outcome of each outbound call and
the measured elapsed duration are inputs, and the log file is a list of
lines, each either a parsed `LogEntry` or an unparseable line (`none`).
Timestamp fields are omitted throughout: no claim under consideration
depends on them.
-/

namespace MiniVault

/-- One line of the backend's streaming response body
(`response.iter_lines()` in `generate_response_stream`).
`malformed` covers both blank lines (skipped by `if line:`) and lines that
raise `json.JSONDecodeError`; `data` is a line parsed as
`{response: ..., done: ...}` (missing keys default to `""` / `False`,
matching `chunk_data.get`). -/
inductive StreamLine where
  | malformed
  | data (response : String) (done : Bool)
deriving DecidableEq

/-- Outcome of the blocking `requests.post(.../api/generate)` call in
`generate_response`.  `ok status respField` is an HTTP response with the
given status whose JSON body parses, carrying the optional `response`
field (`data.get("response", "")`); a 200 response whose body fails to
parse raises and is covered by `exc` (caught by `except Exception`);
`exc msg` carries `str(e)` of the caught exception. -/
inductive GenOutcome where
  | timeout
  | exc (msg : String)
  | ok (status : Nat) (respField : Option String)
deriving DecidableEq

/-- A failure raised in the middle of the lazy body iteration of a
streaming response.  With `stream=True` the body is read lazily, so
`response.iter_lines()` itself can raise `requests.exceptions.Timeout`
or another exception after some lines were already delivered; both are
caught by the same `except` clauses that guard the whole loop
(llm_service.py:197-203). -/
inductive StreamInterrupt where
  | timeout
  | exc (msg : String)
deriving DecidableEq

/-- The reason string the `except` clauses pass to the fallback when the
stream is interrupted: `"Request timeout"` for
`requests.exceptions.Timeout`, `str(e)` otherwise. -/
def interruptReason : StreamInterrupt → String
  | StreamInterrupt.timeout => "Request timeout"
  | StreamInterrupt.exc msg => msg

/-- Outcome of the streaming `requests.post(..., stream=True)` call in
`generate_response_stream`.  `timeout`/`exc` is a failure of the call
itself, before any line; `ok status lines interrupt` is an HTTP response
with the given status whose lazy body iteration (when the status is 200)
delivers `lines` and then either ends normally (`interrupt = none`) or
raises mid-iteration (`interrupt = some _`). -/
inductive StreamOutcome where
  | timeout
  | exc (msg : String)
  | ok (status : Nat) (lines : List StreamLine) (interrupt : Option StreamInterrupt)
deriving DecidableEq

/-- Behaviour of the external model server (and clock) during one request:
the result of the availability probe (`is_available`), the model listing
(`get_available_models`, which returns `[]` on any failure), the outcome
of each generation call, and the elapsed duration measured around the
call (`int((end_time - start_time).total_seconds() * 1000)`, modelled as
the measured natural number of milliseconds). -/
structure Backend where
  available : Bool
  models : List String
  genOutcome : GenOutcome
  streamOutcome : StreamOutcome
  duration_ms : Nat
deriving DecidableEq

/-- Configuration of `OllamaService.__init__`. `base_url` and `timeout`
only parameterize the HTTP calls, whose outcomes are already part of
`Backend`. -/
structure OllamaService where
  base_url : String
  default_model : String
  timeout : Nat
deriving DecidableEq

/-- The dict returned by `OllamaService.generate_response` (timestamp
omitted).  `error_reason` is present exactly when the fallback path built
the dict. -/
structure GenResult where
  response : String
  model : String
  duration_ms : Nat
  success : Bool
  error_reason : Option String := none
deriving DecidableEq

/-- One chunk yielded by `OllamaService.generate_response_stream`
(timestamp omitted).  Keys absent from the corresponding Python dict are
`none`. -/
structure StreamChunk where
  token : String
  model : String
  done : Bool
  success : Bool
  error_reason : Option String := none
  duration_ms : Option Nat := none
  full_response : Option String := none
deriving DecidableEq

/-- One parsed line of `logs/log.jsonl` as written by
`InteractionLogger.log_interaction` (timestamp omitted). -/
structure LogEntry where
  prompt : String
  response : String
  model : String
  duration_ms : Nat
  success : Bool
  error_reason : Option String := none
deriving DecidableEq

/-- The dict returned by `InteractionLogger.get_log_stats`. -/
structure LogStats where
  total_interactions : Nat
  successful_interactions : Nat
  failed_interactions : Nat
  average_duration_ms : ℚ
deriving DecidableEq

/-- Python string truthiness in `model or self.default_model`:
`None` and `""` both select the default. -/
def pyOr (m : Option String) (d : String) : String :=
  match m with
  | none => d
  | some s => if s = "" then d else s

/-- Python `str.lower()`, character by character on the underlying list.
(Agrees with Python on ASCII; every keyword involved is ASCII.) -/
def pyLower (s : String) : String :=
  ⟨s.data.map Char.toLower⟩

/-- Does `needle` occur as a contiguous substring of `hay`?  Models the
Python `in` operator on strings, on the underlying character lists. -/
def strOccurs (needle : List Char) : List Char → Bool
  | [] => needle.isEmpty
  | c :: rest => needle.isPrefixOf (c :: rest) || strOccurs needle rest

/-- Python `keyword in prompt_lower`. -/
def pyInStr (needle hay : String) : Bool :=
  strOccurs needle.data hay.data

/-- Python `str.strip()`: removes leading and trailing whitespace.
(Python's whitespace class is approximated by `Char.isWhitespace`; all
claims only involve ASCII whitespace.) -/
def pyStrip (s : String) : String :=
  ⟨((s.data.dropWhile Char.isWhitespace).reverse.dropWhile Char.isWhitespace).reverse⟩

/-- The fixed keyword → canned-sentence table shared by
`_get_fallback_response` and `_get_fallback_stream_response`
(`fallback_responses` in the source, a dict in insertion order). -/
def fallback_responses : List (String × String) :=
  [("hello", "Hello! I'm a fallback response since the LLM service is currently unavailable."),
   ("what", "I'm sorry, I cannot provide a detailed answer right now as the LLM service is unavailable. This is a fallback response."),
   ("how", "I'd love to help explain that, but the LLM service is currently unavailable. This is a fallback response."),
   ("why", "That's an interesting question! Unfortunately, the LLM service is unavailable right now, so this is a fallback response."),
   ("explain", "I'd be happy to explain that topic, but the LLM service is currently unavailable. This is a fallback response.")]

/-- The generic apology sentence (the initial value of `fallback_text`). -/
def apology : String :=
  "I apologize, but the LLM service is currently unavailable. This is a fallback response to your prompt."

/-- The `for keyword, response in fallback_responses.items(): ... break`
loop: first matching keyword wins, otherwise the initial `fallback_text`
(the apology) survives. -/
def fallbackLoop : List (String × String) → String → String
  | [], _ => apology
  | (keyword, response) :: rest, prompt_lower =>
    if pyInStr keyword prompt_lower then response else fallbackLoop rest prompt_lower

/-- The keyword-based canned-text selection performed identically inside
`_get_fallback_response` and `_get_fallback_stream_response` (the source
repeats the dict and the loop in both methods; factored here). -/
def selectFallbackText (prompt : String) : String :=
  fallbackLoop fallback_responses (pyLower prompt)

/-- `OllamaService._get_fallback_response`. -/
def _get_fallback_response (prompt model error_reason : String) : GenResult :=
  { response := selectFallbackText prompt
    model := model ++ " (fallback)"
    duration_ms := 0
    success := false
    error_reason := some error_reason }

/-- `OllamaService._get_fallback_stream_response`. -/
def _get_fallback_stream_response (prompt model error_reason : String) : StreamChunk :=
  { token := selectFallbackText prompt
    model := model ++ " (fallback)"
    done := true
    success := false
    error_reason := some error_reason
    duration_ms := some 0
    full_response := some (selectFallbackText prompt) }

/-- Model-name resolution and substitution (llm_service.py lines 51 and
57-66, repeated verbatim at lines 122 and 129-139): requested model or
default, then—when the backend's model list is non-empty and does not
contain it—the first listed model.  The source's `else: ... "No models
available"` branch is unreachable: it sits inside
`if available_models and ...`, which requires a non-empty list. -/
def resolveModel (svc : OllamaService) (model : Option String) (models : List String) : String :=
  let model_name := pyOr model svc.default_model
  if !models.isEmpty && !(models.contains model_name) then
    models.headD model_name
  else
    model_name

/-- `OllamaService.generate_response` (llm_service.py lines 40-109). -/
def generate_response (svc : OllamaService) (b : Backend) (prompt : String)
    (model : Option String) : GenResult :=
  let model_name := pyOr model svc.default_model
  if !b.available then
    _get_fallback_response prompt model_name "Ollama service unavailable"
  else
    let model_name := resolveModel svc model b.models
    match b.genOutcome with
    | GenOutcome.ok status respField =>
      if status = 200 then
        { response := pyStrip (respField.getD "")
          model := model_name
          duration_ms := b.duration_ms
          success := true }
      else
        _get_fallback_response prompt model_name ("API error: " ++ toString status)
    | GenOutcome.timeout =>
      _get_fallback_response prompt model_name "Request timeout"
    | GenOutcome.exc msg =>
      _get_fallback_response prompt model_name msg

/-- A token chunk yielded inside the streaming loop (`if token:` branch). -/
def tokenChunk (tok model : String) (done : Bool) : StreamChunk :=
  { token := tok, model := model, done := done, success := true }

/-- The terminal chunk yielded in the `if done:` branch, carrying the
total duration and the accumulated response (`full_response.strip()`). -/
def terminalChunk (model : String) (duration : Nat) (full : String) : StreamChunk :=
  { token := "", model := model, done := true, success := true
    duration_ms := some duration, full_response := some full }

/-- The `for line in response.iter_lines():` loop of
`generate_response_stream` on a 200 response: skip malformed lines, yield
a token chunk for each non-empty token while accumulating it, and on the
first `done` line yield the terminal chunk and break.  If the iteration
raises before a `done` line is reached, the surrounding `except` clauses
(llm_service.py:197-203) yield one fallback chunk — after any token
chunks already yielded — and the generator ends. -/
def processStreamLines (prompt model : String) (duration : Nat) :
    List StreamLine → Option StreamInterrupt → String → List StreamChunk
  | [], none, _ => []
  | [], some i, _ => [_get_fallback_stream_response prompt model (interruptReason i)]
  | StreamLine.malformed :: rest, interrupt, full_response =>
    processStreamLines prompt model duration rest interrupt full_response
  | StreamLine.data tok done :: rest, interrupt, full_response =>
    let tokChunks : List StreamChunk := if tok = "" then [] else [tokenChunk tok model done]
    let full_response := if tok = "" then full_response else full_response ++ tok
    if done then
      tokChunks ++ [terminalChunk model duration (pyStrip full_response)]
    else
      tokChunks ++ processStreamLines prompt model duration rest interrupt full_response

/-- `OllamaService.generate_response_stream` (llm_service.py lines
111-203): the finite sequence of chunks the generator yields. -/
def generate_response_stream (svc : OllamaService) (b : Backend) (prompt : String)
    (model : Option String) : List StreamChunk :=
  let model_name := pyOr model svc.default_model
  if !b.available then
    [_get_fallback_stream_response prompt model_name "Ollama service unavailable"]
  else
    let model_name := resolveModel svc model b.models
    match b.streamOutcome with
    | StreamOutcome.ok status lines interrupt =>
      if status = 200 then
        processStreamLines prompt model_name b.duration_ms lines interrupt ""
      else
        [_get_fallback_stream_response prompt model_name ("API error: " ++ toString status)]
    | StreamOutcome.timeout =>
      [_get_fallback_stream_response prompt model_name "Request timeout"]
    | StreamOutcome.exc msg =>
      [_get_fallback_stream_response prompt model_name msg]

/-- `InteractionLogger.log_interaction`: the `LogEntry` built from the
prompt and a complete-mode result dict.  The typed `GenResult` always
carries the keys the source reads with `.get` defaults. -/
def log_interaction (prompt : String) (r : GenResult) : LogEntry :=
  { prompt := prompt
    response := r.response
    model := r.model
    duration_ms := r.duration_ms
    success := r.success
    error_reason := r.error_reason }

/-- The complete-mode body of the `/generate` endpoint (app.py lines
163-178): invoke `generate_response`, append exactly one log entry, and
return the result.  (The surrounding `except Exception` handler cannot
trigger in the embedding because `generate_response` is total.) -/
def generate_endpoint_complete (svc : OllamaService) (b : Backend) (prompt : String)
    (model : Option String) : GenResult × List LogEntry :=
  let response_data := generate_response svc b prompt model
  (response_data, [log_interaction prompt response_data])

/-- The streaming-mode orchestration loop of the `/generate` endpoint
(app.py lines 100-138), reduced to its log side effect: accumulate
non-empty tokens, and on the first `done` chunk append one entry built
from the accumulated text and the chunk's model/success/error fields,
then break.  `duration` stands for the wall-clock duration the endpoint
measures around the stream. -/
def stream_log_entries (prompt : String) (duration : Nat) :
    List StreamChunk → String → List LogEntry
  | [], _ => []
  | c :: rest, full_response =>
    let full_response := if c.token = "" then full_response else full_response ++ c.token
    if c.done then
      [{ prompt := prompt
         response := full_response
         model := c.model
         duration_ms := duration
         success := c.success
         error_reason := if c.success then none else some (c.error_reason.getD "Unknown error") }]
    else
      stream_log_entries prompt duration rest full_response

/-- The log entries appended by one streaming-mode request. -/
def generate_endpoint_stream_logs (svc : OllamaService) (b : Backend) (prompt : String)
    (model : Option String) (duration : Nat) : List LogEntry :=
  stream_log_entries prompt duration (generate_response_stream svc b prompt model) ""

/-- Python `lines[-limit:]` for a non-negative `limit`: the last `limit`
elements, except that `limit = 0` gives `lines[-0:] = lines[0:]`, the
whole list. -/
def pyTailSlice (lines : List α) (limit : Nat) : List α :=
  if limit = 0 then lines else lines.drop (lines.length - limit)

/-- `InteractionLogger.get_recent_logs` (logging_service.py lines 57-89).
The log file is `none` when absent, otherwise the list of its lines, each
either a parsed `LogEntry` or `none` for a line that raises
`json.JSONDecodeError`. -/
def get_recent_logs (file : Option (List (Option LogEntry))) (limit : Nat) : List LogEntry :=
  match file with
  | none => []
  | some lines =>
    let recent_lines := if lines.length > limit then pyTailSlice lines limit else lines
    recent_lines.filterMap id

/-- Python `round(x, 2)` on the average duration, modelled on exact
rationals as rounding to the nearest multiple of 1/100.  (Python rounds
binary floats half-to-even; no claim exercises a half-way case.) -/
def pyRound2 (q : ℚ) : ℚ :=
  ((round (q * 100) : ℤ) : ℚ) / 100

/-- The counter loop of `InteractionLogger.get_log_stats`: state is
`(total, successful, failed, total_duration)`; unparseable lines
(`continue` on `json.JSONDecodeError`) leave it unchanged. -/
def statsLoop : List (Option LogEntry) → Nat × Nat × Nat × Nat → Nat × Nat × Nat × Nat
  | [], st => st
  | none :: rest, st => statsLoop rest st
  | some entry :: rest, (total, successful, failed, total_duration) =>
    statsLoop rest
      (total + 1,
       if entry.success then successful + 1 else successful,
       if entry.success then failed else failed + 1,
       total_duration + entry.duration_ms)

/-- `InteractionLogger.get_log_stats` (logging_service.py lines 91-144). -/
def get_log_stats (file : Option (List (Option LogEntry))) : LogStats :=
  match file with
  | none =>
    { total_interactions := 0, successful_interactions := 0
      failed_interactions := 0, average_duration_ms := 0 }
  | some lines =>
    let st := statsLoop lines (0, 0, 0, 0)
    let avg_duration : ℚ := if 0 < st.1 then (st.2.2.2 : ℚ) / (st.1 : ℚ) else 0
    { total_interactions := st.1
      successful_interactions := st.2.1
      failed_interactions := st.2.2.1
      average_duration_ms := pyRound2 avg_duration }

/-- Does the behaviour make the non-streaming generation path fail?  The
complement of "availability probe succeeded and the generate call
returned status 200 with a parseable body". -/
def isGenFailure (b : Backend) : Bool :=
  !b.available ||
    match b.genOutcome with
    | GenOutcome.ok status _ => if status = 200 then false else true
    | _ => true

/-- Does this parsed stream line carry `done=true`? -/
def lineIsDone : StreamLine → Bool
  | StreamLine.malformed => false
  | StreamLine.data _ done => done

/-- Is this a line that does NOT combine a non-empty token with
`done=true`?  (On such a line the source yields a token chunk that itself
carries the `done` flag, ahead of the terminal chunk.) -/
def lineNoTokenDone : StreamLine → Bool
  | StreamLine.data tok true => tok = ""
  | _ => true

/-- The behaviours under which the chunk sequence is guaranteed to reach
a `done=true` chunk: any pre-stream failure (which yields the single
fallback chunk), a 200 line stream containing a `done` line, or a 200
stream cut by a mid-iteration exception (whose fallback chunk also has
`done=true`). -/
def streamTerminates (b : Backend) : Bool :=
  !b.available ||
    match b.streamOutcome with
    | StreamOutcome.ok status lines interrupt =>
      if status = 200 then lines.any lineIsDone || interrupt.isSome else true
    | _ => true

/-- No line of a 200 stream combines a non-empty token with `done=true`. -/
def streamNoTokenDone (b : Backend) : Bool :=
  match b.streamOutcome with
  | StreamOutcome.ok status lines _ =>
    if status = 200 then lines.all lineNoTokenDone else true
  | _ => true

/-- Does the streaming path end in a failure chunk?  True for every
pre-stream failure, and for a 200 stream that is cut by a mid-iteration
exception before any `done` line arrived (the source breaks at the first
`done` line, so a later interrupt never materialises). -/
def streamFails (b : Backend) : Bool :=
  !b.available ||
    match b.streamOutcome with
    | StreamOutcome.ok status lines interrupt =>
      if status = 200 then !(lines.any lineIsDone) && interrupt.isSome else true
    | _ => true

/-- Is the streaming termination caused by a mid-iteration exception
(as opposed to a pre-stream failure or a `done` line)? -/
def streamInterrupted (b : Backend) : Bool :=
  b.available &&
    match b.streamOutcome with
    | StreamOutcome.ok status lines (some _) =>
      if status = 200 then !(lines.any lineIsDone) else false
    | _ => false

/-- Does the chunk sequence end with a failure chunk (`done=true`,
`success=false`, reason present)? -/
def endsWithFailChunk (cs : List StreamChunk) : Bool :=
  match cs.getLast? with
  | some c => c.done && !c.success && c.error_reason.isSome
  | none => false

/-- Number of `done=true` chunks in a chunk sequence. -/
def countDone (cs : List StreamChunk) : Nat :=
  (cs.filter (fun c => c.done)).length

/-- Concatenation of the token fields of a chunk sequence (the text the
endpoint accumulates, up to the terminal chunk's empty token). -/
def concatTokens (cs : List StreamChunk) : String :=
  cs.foldr (fun c s => c.token ++ s) ""

/-- Is any caught-exception description in the behaviour non-empty?
(`str(e)` of an argument-less exception is the empty string.) -/
def genExcDescNonEmpty (b : Backend) : Bool :=
  match b.genOutcome with
  | GenOutcome.exc msg => !(msg == "")
  | _ => true

/-- Is the description of a mid-iteration exception (if any) non-empty? -/
def intrDescNonEmpty : Option StreamInterrupt → Bool
  | some (StreamInterrupt.exc msg) => !(msg == "")
  | _ => true

/-- Is the description of any streaming-side caught exception non-empty? -/
def streamExcDescNonEmpty (b : Backend) : Bool :=
  match b.streamOutcome with
  | StreamOutcome.exc msg => !(msg == "")
  | StreamOutcome.ok _ _ interrupt => intrDescNonEmpty interrupt
  | StreamOutcome.timeout => true

/-- Are all caught-exception descriptions in the behaviour non-empty? -/
def excDescsNonEmpty (b : Backend) : Bool :=
  genExcDescNonEmpty b && streamExcDescNonEmpty b

/-- Trailing-only whitespace trim.  Modelled from the spec's words ("trim
trailing whitespace from response text"), to be compared with the
implementation's `pyStrip` (Python `str.strip()`, which also removes
leading whitespace). -/
def rstripSpec (s : String) : String :=
  ⟨(s.data.reverse.dropWhile Char.isWhitespace).reverse⟩

/-- Fixture: the default service configuration. -/
def svcD : OllamaService :=
  { base_url := "http://localhost:11434", default_model := "llama2", timeout := 30 }

/-- Fixture: backend whose availability probe fails. -/
def backendDown : Backend :=
  { available := false
    models := []
    genOutcome := GenOutcome.exc "connection refused"
    streamOutcome := StreamOutcome.exc "connection refused"
    duration_ms := 0 }

/-- Fixture: backend that is available, knows the default model, and
answers the streaming call with a 200 response whose body contains no
lines at all and ends without raising (the connection delivers no `done`
line). -/
def backendEmptyStream : Backend :=
  { available := true
    models := ["llama2"]
    genOutcome := GenOutcome.ok 200 (some "ok")
    streamOutcome := StreamOutcome.ok 200 [] none
    duration_ms := 0 }

/-- Fixture: backend whose 200 stream delivers a single line combining a
non-empty token with `done=true`. -/
def backendTokenDone : Backend :=
  { available := true
    models := ["llama2"]
    genOutcome := GenOutcome.ok 200 (some "ok")
    streamOutcome := StreamOutcome.ok 200 [StreamLine.data "x" true] none
    duration_ms := 0 }

/-- Fixture: backend whose 200 stream delivers one token line and is then
cut by a connection error before any `done` line. -/
def backendMidStreamFail : Backend :=
  { available := true
    models := ["llama2"]
    genOutcome := GenOutcome.ok 200 (some "ok")
    streamOutcome := StreamOutcome.ok 200 [StreamLine.data "Hel" false]
      (some (StreamInterrupt.exc "connection broken"))
    duration_ms := 0 }

/-- Fixture family: available backend whose non-streaming generate call
returns status 200 with the given parsed `response` field. -/
def backend200 (models : List String) (f : Option String) (so : StreamOutcome) (d : Nat) : Backend :=
  { available := true
    models := models
    genOutcome := GenOutcome.ok 200 f
    streamOutcome := so
    duration_ms := d }

/-! ### Helper lemmas -/

theorem str_data_append (s t : String) : (s ++ t).data = s.data ++ t.data := by
  cases s; cases t; rfl

theorem str_append_empty (s : String) : s ++ "" = s := by
  cases s with
  | mk d => show String.mk (d ++ []) = String.mk d; simp

theorem str_empty_append (s : String) : "" ++ s = s := by
  cases s with
  | mk d => rfl

theorem str_append_assoc (a b c : String) : a ++ b ++ c = a ++ (b ++ c)  := by
  cases a; cases b; cases c
  show String.mk _ = String.mk _
  simp

theorem str_append_ne_empty_left (s t : String) (h : s ≠ "") : s ++ t ≠ "" := by
  cases s with
  | mk d =>
    cases t with
    | mk e =>
      intro heq
      cases d with
      | nil => exact h rfl
      | cons x xs => simp [String.ext_iff] at heq

theorem concatTokens_nil : concatTokens [] = "" := rfl

theorem concatTokens_cons (c : StreamChunk) (cs : List StreamChunk) :
    concatTokens (c :: cs) = c.token ++ concatTokens cs := rfl

theorem concatTokens_append (a b : List StreamChunk) :
    concatTokens (a ++ b) = concatTokens a ++ concatTokens b := by
  induction a with
  | nil => simp [concatTokens_nil, str_empty_append]
  | cons c rest ih =>
    simp only [List.cons_append, concatTokens_cons, ih, str_append_assoc]

/-- The source's first-match-wins loop agrees with `List.find?` over the
keyword table. -/
theorem fallbackLoop_eq_find (pl : String) (l : List (String × String)) :
    fallbackLoop l pl = ((l.find? (fun kr => pyInStr kr.1 pl)).map Prod.snd).getD apology := by
  induction l with
  | nil => rfl
  | cons kr rest ih =>
    obtain ⟨k, resp⟩ := kr
    cases hk : pyInStr k pl with
    | true => simp [fallbackLoop, List.find?, hk]
    | false => simp [fallbackLoop, List.find?, hk, ih]

/-- Every canned fallback sentence (and the apology) is already free of
leading and trailing whitespace. -/
theorem pyStrip_selectFallbackText (prompt : String) :
    pyStrip (selectFallbackText prompt) = selectFallbackText prompt := by
  unfold selectFallbackText fallback_responses
  simp only [fallbackLoop]
  split_ifs <;> decide

theorem filterMap_id_map_some (l : List LogEntry) : (l.map some).filterMap id = l := by
  rw [List.filterMap_map]
  simp

/-- Every chunk produced from a 200 line stream that ends without a
mid-iteration exception carries `success=true`. -/
theorem processStreamLines_all_success (prompt m : String) (d : Nat) :
    ∀ (lines : List StreamLine) (acc : String),
      (processStreamLines prompt m d lines none acc).all (fun c => c.success) = true := by
  intro lines
  induction lines with
  | nil => intro acc; rfl
  | cons l rest ih =>
    intro acc
    cases l with
    | malformed => simpa [processStreamLines] using ih acc
    | data tok done =>
      cases done with
      | true =>
        by_cases htok : tok = "" <;>
          simp [processStreamLines, htok, tokenChunk, terminalChunk]
      | false =>
        by_cases htok : tok = "" <;>
          simp [processStreamLines, htok, tokenChunk, ih]

/-- Every chunk produced from a 200 line stream either succeeds or
carries a non-empty error reason, provided the description of a
mid-iteration exception (if any) is non-empty. -/
theorem processStreamLines_all_ok (prompt m : String) (d : Nat) :
    ∀ (lines : List StreamLine) (intr : Option StreamInterrupt) (acc : String),
      intrDescNonEmpty intr = true →
      (processStreamLines prompt m d lines intr acc).all
        (fun c => c.success || !(c.error_reason.getD "" == "")) = true := by
  intro lines
  induction lines with
  | nil =>
    intro intr acc h
    cases intr with
    | none => rfl
    | some i =>
      cases i with
      | timeout =>
        simp [processStreamLines, _get_fallback_stream_response, interruptReason]
      | exc msg =>
        have hmsg : ¬ msg = "" := by simpa [intrDescNonEmpty] using h
        simp [processStreamLines, _get_fallback_stream_response, interruptReason, hmsg]
  | cons l rest ih =>
    intro intr acc h
    cases l with
    | malformed => simpa [processStreamLines] using ih intr acc h
    | data tok done =>
      cases done with
      | true =>
        by_cases htok : tok = "" <;>
          simp [processStreamLines, htok, tokenChunk, terminalChunk]
      | false =>
        by_cases htok : tok = "" <;>
          simp [processStreamLines, htok, tokenChunk, ih intr acc h, ih intr (acc ++ tok) h]

/-- If the 200 line stream contains a `done` line or is cut by a
mid-iteration exception, the chunk sequence contains a `done` chunk. -/
theorem processStreamLines_any_done (prompt m : String) (d : Nat) :
    ∀ (lines : List StreamLine) (intr : Option StreamInterrupt) (acc : String),
      (lines.any lineIsDone || intr.isSome) = true →
      (processStreamLines prompt m d lines intr acc).any (fun c => c.done) = true := by
  intro lines
  induction lines with
  | nil =>
    intro intr acc h
    cases intr with
    | none => simp at h
    | some i => simp [processStreamLines, _get_fallback_stream_response]
  | cons l rest ih =>
    intro intr acc h
    cases l with
    | malformed =>
      have h' : (rest.any lineIsDone || intr.isSome) = true := by simpa [lineIsDone] using h
      simpa [processStreamLines] using ih intr acc h'
    | data tok done =>
      cases done with
      | true =>
        by_cases htok : tok = "" <;>
          simp [processStreamLines, htok, tokenChunk, terminalChunk]
      | false =>
        have h' : (rest.any lineIsDone || intr.isSome) = true := by simpa [lineIsDone] using h
        by_cases htok : tok = "" <;>
          simp [processStreamLines, htok, tokenChunk, ih intr acc h', ih intr (acc ++ tok) h']

/-- Structure of the chunk sequence for a 200 line stream that contains a
`done` line none of whose lines combines a token with `done=true`: some
non-`done` token chunks followed by one terminal chunk carrying the
stripped accumulated text.  The loop breaks at the first `done` line, so
a pending interrupt never fires. -/
theorem processStreamLines_done_shape (prompt m : String) (d : Nat) :
    ∀ (lines : List StreamLine) (intr : Option StreamInterrupt) (acc : String),
      lines.any lineIsDone = true →
      lines.all lineNoTokenDone = true →
      ∃ cs, processStreamLines prompt m d lines intr acc
          = cs ++ [terminalChunk m d (pyStrip (acc ++ concatTokens cs))]
        ∧ cs.all (fun c => !c.done) = true := by
  intro lines
  induction lines with
  | nil => intro intr acc h1 _; simp at h1
  | cons l rest ih =>
    intro intr acc h1 h2
    cases l with
    | malformed =>
      have h1' : rest.any lineIsDone = true := by simpa [lineIsDone] using h1
      have h2' : rest.all lineNoTokenDone = true := by
        rw [List.all_cons, Bool.and_eq_true] at h2
        exact h2.2
      obtain ⟨cs, hcs, hnd⟩ := ih intr acc h1' h2'
      exact ⟨cs, by simpa [processStreamLines] using hcs, hnd⟩
    | data tok done =>
      cases done with
      | true =>
        rw [List.all_cons, Bool.and_eq_true] at h2
        have htok : tok = "" := by simpa [lineNoTokenDone] using h2.1
        subst htok
        refine ⟨[], ?_, rfl⟩
        simp [processStreamLines, concatTokens_nil, str_append_empty]
      | false =>
        have h1' : rest.any lineIsDone = true := by simpa [lineIsDone] using h1
        have h2' : rest.all lineNoTokenDone = true := by
          rw [List.all_cons, Bool.and_eq_true] at h2
          exact h2.2
        by_cases htok : tok = ""
        · obtain ⟨cs, hcs, hnd⟩ := ih intr acc h1' h2'
          exact ⟨cs, by simpa [processStreamLines, htok] using hcs, hnd⟩
        · obtain ⟨cs, hcs, hnd⟩ := ih intr (acc ++ tok) h1' h2'
          refine ⟨tokenChunk tok m false :: cs, ?_, ?_⟩
          · simp only [processStreamLines, htok, if_neg, ite_false, List.cons_append]
            rw [hcs, concatTokens_cons]
            simp [tokenChunk, str_append_assoc]
          · simp [tokenChunk, hnd]

/-- If the 200 line stream contains a `done` line, the chunk sequence
ends with a terminal chunk (regardless of token/done combinations). -/
theorem processStreamLines_done_last (prompt m : String) (d : Nat) :
    ∀ (lines : List StreamLine) (intr : Option StreamInterrupt) (acc : String),
      lines.any lineIsDone = true →
      ∃ cs full, processStreamLines prompt m d lines intr acc
        = cs ++ [terminalChunk m d full] := by
  intro lines
  induction lines with
  | nil => intro intr acc h; simp at h
  | cons l rest ih =>
    intro intr acc h
    cases l with
    | malformed =>
      have h' : rest.any lineIsDone = true := by simpa [lineIsDone] using h
      obtain ⟨cs, full, hcs⟩ := ih intr acc h'
      exact ⟨cs, full, by simpa [processStreamLines] using hcs⟩
    | data tok done =>
      cases done with
      | true =>
        by_cases htok : tok = ""
        · exact ⟨[], pyStrip acc, by simp [processStreamLines, htok]⟩
        · exact ⟨[tokenChunk tok m true], pyStrip (acc ++ tok),
            by simp [processStreamLines, htok]⟩
      | false =>
        have h' : rest.any lineIsDone = true := by simpa [lineIsDone] using h
        by_cases htok : tok = ""
        · obtain ⟨cs, full, hcs⟩ := ih intr acc h'
          exact ⟨cs, full, by simpa [processStreamLines, htok] using hcs⟩
        · obtain ⟨cs, full, hcs⟩ := ih intr (acc ++ tok) h'
          refine ⟨tokenChunk tok m false :: cs, full, ?_⟩
          simp only [processStreamLines, htok, ite_false, List.cons_append]
          rw [hcs]
          simp [tokenChunk]

/-- Structure of the chunk sequence for a 200 line stream with no `done`
line that is cut by a mid-iteration exception: some non-`done` token
chunks followed by one fallback chunk. -/
theorem processStreamLines_interrupt_shape (prompt m : String) (d : Nat) :
    ∀ (lines : List StreamLine) (i : StreamInterrupt) (acc : String),
      lines.any lineIsDone = false →
      ∃ cs, processStreamLines prompt m d lines (some i) acc
          = cs ++ [_get_fallback_stream_response prompt m (interruptReason i)]
        ∧ cs.all (fun c => !c.done) = true := by
  intro lines
  induction lines with
  | nil => intro i acc _; exact ⟨[], rfl, rfl⟩
  | cons l rest ih =>
    intro i acc h
    cases l with
    | malformed =>
      have h' : rest.any lineIsDone = false := by simpa [lineIsDone] using h
      obtain ⟨cs, hcs, hnd⟩ := ih i acc h'
      exact ⟨cs, by simpa [processStreamLines] using hcs, hnd⟩
    | data tok done =>
      cases done with
      | true => simp [lineIsDone] at h
      | false =>
        have h' : rest.any lineIsDone = false := by simpa [lineIsDone] using h
        by_cases htok : tok = ""
        · obtain ⟨cs, hcs, hnd⟩ := ih i acc h'
          exact ⟨cs, by simpa [processStreamLines, htok] using hcs, hnd⟩
        · obtain ⟨cs, hcs, hnd⟩ := ih i (acc ++ tok) h'
          refine ⟨tokenChunk tok m false :: cs, ?_, ?_⟩
          · simp only [processStreamLines, htok, ite_false, List.cons_append]
            rw [hcs]
            simp [tokenChunk]
          · simp [tokenChunk, hnd]

/-- The endpoint's streaming loop appends exactly one entry as soon as the
chunk sequence contains a `done` chunk. -/
theorem stream_log_entries_length (prompt : String) (dur : Nat) :
    ∀ (cs : List StreamChunk) (acc : String),
      cs.any (fun c => c.done) = true →
      (stream_log_entries prompt dur cs acc).length = 1 := by
  intro cs
  induction cs with
  | nil => intro acc h; simp at h
  | cons c rest ih =>
    intro acc h
    cases hc : c.done with
    | true => simp [stream_log_entries, hc]
    | false =>
      have h' : rest.any (fun c => c.done) = true := by simpa [hc] using h
      simp [stream_log_entries, hc, ih _ h']

/-- A sequence of all-successful chunks never ends with a failure
chunk. -/
theorem endsWithFail_of_all_success (cs : List StreamChunk)
    (h : cs.all (fun c => c.success) = true) : endsWithFailChunk cs = false := by
  induction cs with
  | nil => rfl
  | cons c rest ih =>
    cases rest with
    | nil =>
      have hc : c.success = true := by simpa using h
      simp [endsWithFailChunk, hc]
    | cons c2 rs =>
      have h' : (c2 :: rs).all (fun c => c.success) = true := by
        rw [List.all_cons, Bool.and_eq_true] at h
        exact h.2
      have := ih h'
      simpa [endsWithFailChunk, List.getLast?_cons_cons] using this

/-- Under `streamTerminates`, the generated chunk sequence contains a
`done` chunk. -/
theorem genStream_any_done (svc : OllamaService) (b : Backend) (prompt : String)
    (model : Option String) (h : streamTerminates b = true) :
    (generate_response_stream svc b prompt model).any (fun c => c.done) = true := by
  obtain ⟨avail, models, gOut, sOut, dur⟩ := b
  cases avail with
  | false => simp [generate_response_stream, _get_fallback_stream_response]
  | true =>
    cases sOut with
    | timeout => simp [generate_response_stream, _get_fallback_stream_response]
    | exc msg => simp [generate_response_stream, _get_fallback_stream_response]
    | ok status lines intr =>
      by_cases hs : status = 200
      · subst hs
        have h' : (lines.any lineIsDone || intr.isSome) = true := by
          simpa [streamTerminates] using h
        simpa [generate_response_stream] using
          processStreamLines_any_done prompt (resolveModel svc model models) dur lines intr "" h'
      · simp [generate_response_stream, hs, _get_fallback_stream_response]

/-- Closed form of the stats counter loop: counts and duration sum over
the parseable entries, added to the incoming state. -/
theorem statsLoop_spec :
    ∀ (lines : List (Option LogEntry)) (t s f d : Nat),
      statsLoop lines (t, s, f, d)
        = (t + (lines.filterMap id).length,
           s + ((lines.filterMap id).filter (fun e => e.success)).length,
           f + ((lines.filterMap id).filter (fun e => !e.success)).length,
           d + ((lines.filterMap id).map (fun e => e.duration_ms)).sum) := by
  intro lines
  induction lines with
  | nil => intro t s f d; simp [statsLoop]
  | cons l rest ih =>
    intro t s f d
    cases l with
    | none => simpa [statsLoop, List.filterMap_cons] using ih t s f d
    | some e =>
      cases he : e.success <;>
        simp [statsLoop, List.filterMap_cons, List.filter_cons, he, ih] <;>
        omega

/-- Unparseable lines do not influence the counter loop. -/
theorem statsLoop_filterMap (lines : List (Option LogEntry)) :
    statsLoop ((lines.filterMap id).map some) (0, 0, 0, 0) = statsLoop lines (0, 0, 0, 0) := by
  rw [statsLoop_spec, statsLoop_spec, filterMap_id_map_some]

/-- Failure count is total minus success count. -/
theorem length_filter_not_success (l : List LogEntry) :
    (l.filter (fun e => !e.success)).length
      = l.length - (l.filter (fun e => e.success)).length := by
  induction l with
  | nil => rfl
  | cons e rest ih =>
    have hle : (rest.filter (fun e => e.success)).length ≤ rest.length :=
      List.length_filter_le _ _
    cases he : e.success <;> simp [List.filter_cons, he, ih] <;> try omega

/-- The fallback chunk's `full_response` is the stripped concatenation of
the tokens of the singleton sequence it forms (its own token, the canned
text, which carries no surrounding whitespace). -/
theorem fallback_chunk_full (prompt m reason : String) :
    (_get_fallback_stream_response prompt m reason).full_response
      = some (pyStrip (concatTokens [_get_fallback_stream_response prompt m reason])) := by
  rw [concatTokens_cons, concatTokens_nil, str_append_empty]
  simp [_get_fallback_stream_response, pyStrip_selectFallbackText]

/-! ### Claim theorems -/

/-- C8: for every prompt, the fallback text is selected by scanning the
lowercased prompt against the fixed ordered keyword list
`["hello", "what", "how", "why", "explain"]` by substring match,
returning the canned sentence of the first keyword that occurs, or the
generic apology when none occurs; the selection is a pure function of the
prompt, so calling it twice yields identical text. -/
theorem c8_fallback_text_selection (prompt : String) :
    fallback_responses.map Prod.fst = ["hello", "what", "how", "why", "explain"]
    ∧ selectFallbackText prompt
        = ((fallback_responses.find? (fun kr => pyInStr kr.1 (pyLower prompt))).map
            Prod.snd).getD apology
    ∧ selectFallbackText prompt = selectFallbackText prompt :=
  ⟨by decide, fallbackLoop_eq_find (pyLower prompt) fallback_responses, rfl⟩

/-- C10: with `limit = 0`, `get_recent_logs` returns all parseable
entries of an existing log file (Python `lines[-0:]` is the whole list),
not the empty sequence; in particular on a fully parseable file it
returns every entry. -/
theorem c10_limit_zero_returns_all (lines : List (Option LogEntry)) (entries : List LogEntry) :
    get_recent_logs (some lines) 0 = lines.filterMap id
    ∧ get_recent_logs (some (entries.map some)) 0 = entries := by
  have h1 : ∀ (ls : List (Option LogEntry)), get_recent_logs (some ls) 0 = ls.filterMap id := by
    intro ls
    unfold get_recent_logs pyTailSlice
    simp
  exact ⟨h1 lines, by rw [h1 (entries.map some), filterMap_id_map_some]⟩

/-- C9 (amended): when the backend generation call returns status 200,
`generate_response` returns a success result whose model is the resolved
model name, whose duration is the measured duration, and whose response
text is the backend's `response` field with leading AND trailing
whitespace stripped (Python `str.strip()`, not a trailing-only trim). -/
theorem c9_success_result (svc : OllamaService) (prompt : String) (model : Option String)
    (models : List String) (f : Option String) (so : StreamOutcome) (d : Nat) :
    (generate_response svc (backend200 models f so d) prompt model).success = true
    ∧ (generate_response svc (backend200 models f so d) prompt model).model
        = resolveModel svc model models
    ∧ (generate_response svc (backend200 models f so d) prompt model).response
        = pyStrip (f.getD "")
    ∧ (generate_response svc (backend200 models f so d) prompt model).duration_ms = d :=
  ⟨rfl, rfl, rfl, rfl⟩

/-- C9 counterexample: on a 200 response whose text has leading
whitespace, the returned response is `.strip()`-ed on both ends, so it
differs from the trailing-only trim the claim describes. -/
theorem c9_counterexample :
    (generate_response svcD (backend200 ["llama2"] (some "  hi ") (StreamOutcome.ok 200 [] none) 5)
        "p" none).response = "hi"
    ∧ rstripSpec "  hi " = "  hi"
    ∧ (generate_response svcD (backend200 ["llama2"] (some "  hi ") (StreamOutcome.ok 200 [] none) 5)
        "p" none).response ≠ rstripSpec "  hi " :=
  ⟨by decide, by decide, by decide⟩

/-- C4: evaluation at the failing input.  With the backend available but
its model list empty, `generate_response` does NOT return the
"No models available" fallback: the guarding `if available_models and ...`
is false for an empty list, so the code proceeds to issue the generation
call and returns its 200 result as a success.  (The `No models available`
branch at llm_service.py:66 is unreachable.) -/
theorem c4_empty_model_list_divergence :
    generate_response svcD
        { available := true
          models := []
          genOutcome := GenOutcome.ok 200 (some "backend output")
          streamOutcome := StreamOutcome.ok 200 [] none
          duration_ms := 7 }
        "hi" (some "custommodel")
      = { response := "backend output", model := "custommodel", duration_ms := 7,
          success := true, error_reason := none } := by
  decide

/-- C1 (amended): every accepted request appends exactly one log entry in
complete mode; in streaming mode exactly one entry is appended whenever
the backend path guarantees a `done` chunk (backend unavailable, timeout,
non-200, an exception raised before or during the 200 stream, or a 200
stream containing a `done` line).  A 200 stream that ends without a
`done` line and without raising appends none — see the counterexample. -/
theorem c1_exactly_one_log_entry (svc : OllamaService) (b : Backend) (prompt : String)
    (model : Option String) (duration : Nat) (h : streamTerminates b = true) :
    (generate_endpoint_complete svc b prompt model).2.length = 1
    ∧ (generate_endpoint_stream_logs svc b prompt model duration).length = 1 :=
  ⟨rfl, stream_log_entries_length prompt duration _ ""
      (genStream_any_done svc b prompt model h)⟩

/-- Witness for C1: a concrete unavailable backend, where both modes
append exactly one entry. -/
theorem c1_exactly_one_log_entry_witness :
    streamTerminates backendDown = true
    ∧ ((generate_endpoint_complete svcD backendDown "hi" none).2.length = 1
        ∧ (generate_endpoint_stream_logs svcD backendDown "hi" none 5).length = 1) :=
  ⟨by decide, c1_exactly_one_log_entry svcD backendDown "hi" none 5 (by decide)⟩

/-- C1 counterexample: a streaming request against an available backend
whose 200 response body contains no lines (hence no `done` line) appends
zero log entries, refuting "exactly one LogEntry per request regardless
of backend behaviour". -/
theorem c1_counterexample :
    (generate_endpoint_stream_logs svcD backendEmptyStream "hi" none 5).length = 0 := by
  decide

/-- C3 counterexample, refuting each part of the claim at a concrete
input: (a) a 200 response body with no lines yields an EMPTY chunk
sequence; (b) a line combining a non-empty token with `done=true` yields
TWO `done=true` chunks; (c) a mid-iteration exception after a token line
yields a final `done` chunk whose `full_response` is the canned fallback
text, NOT the accumulated response. -/
theorem c3_counterexample :
    generate_response_stream svcD backendEmptyStream "hi" none = []
    ∧ countDone (generate_response_stream svcD backendTokenDone "hi" none) = 2
    ∧ generate_response_stream svcD backendMidStreamFail "hi" none
        = [tokenChunk "Hel" "llama2" false,
           _get_fallback_stream_response "hi" "llama2" "connection broken"]
    ∧ (_get_fallback_stream_response "hi" "llama2" "connection broken").full_response
        = some apology
    ∧ pyStrip (concatTokens (generate_response_stream svcD backendMidStreamFail "hi" none))
        ≠ apology := by
  refine ⟨by decide, by decide, by decide, by decide, by decide⟩

/-- C5: after appending N parseable entries of which S are successful,
`get_log_stats` reports total = N, successful = S, failed = N − S, and
average duration = round(sum / N, 2), or all zeros when the file is
absent (and, with N = 0, total/successful/failed are 0 and the average is
0); unparseable lines are skipped and not counted; and the concrete
example durations [100, 200, 0] with successes [true, true, false] give
{total 3, successful 2, failed 1, average 100}. -/
theorem c5_stats (entries : List LogEntry) (lines : List (Option LogEntry)) :
    (get_log_stats (some (entries.map some))).total_interactions = entries.length
    ∧ (get_log_stats (some (entries.map some))).successful_interactions
        = (entries.filter (fun e => e.success)).length
    ∧ (get_log_stats (some (entries.map some))).failed_interactions
        = entries.length - (entries.filter (fun e => e.success)).length
    ∧ (get_log_stats (some (entries.map some))).average_duration_ms
        = (if 0 < entries.length
            then pyRound2 ((((entries.map (fun e => e.duration_ms)).sum : ℕ) : ℚ) / (entries.length : ℚ))
            else 0)
    ∧ get_log_stats none
        = { total_interactions := 0, successful_interactions := 0,
            failed_interactions := 0, average_duration_ms := 0 }
    ∧ get_log_stats (some lines) = get_log_stats (some ((lines.filterMap id).map some))
    ∧ get_log_stats (some (([{ prompt := "p1", response := "r1", model := "m",
                               duration_ms := 100, success := true, error_reason := none },
                             { prompt := "p2", response := "r2", model := "m",
                               duration_ms := 200, success := true, error_reason := none },
                             { prompt := "p3", response := "r3", model := "m",
                               duration_ms := 0, success := false,
                               error_reason := some "backend down" }] : List LogEntry).map some))
        = { total_interactions := 3, successful_interactions := 2,
            failed_interactions := 1, average_duration_ms := 100 } := by
  have hst : statsLoop (entries.map some) (0, 0, 0, 0)
      = (entries.length,
         (entries.filter (fun e => e.success)).length,
         (entries.filter (fun e => !e.success)).length,
         (entries.map (fun e => e.duration_ms)).sum) := by
    rw [statsLoop_spec, filterMap_id_map_some]
    simp
  have h1 : (statsLoop (entries.map some) (0, 0, 0, 0)).1 = entries.length := by rw [hst]
  have h2 : (statsLoop (entries.map some) (0, 0, 0, 0)).2.1
      = (entries.filter (fun e => e.success)).length := by rw [hst]
  have h3 : (statsLoop (entries.map some) (0, 0, 0, 0)).2.2.1
      = (entries.filter (fun e => !e.success)).length := by rw [hst]
  have h4 : (statsLoop (entries.map some) (0, 0, 0, 0)).2.2.2
      = (entries.map (fun e => e.duration_ms)).sum := by rw [hst]
  refine ⟨?_, ?_, ?_, ?_, rfl, ?_, ?_⟩
  · simp only [get_log_stats]
    rw [h1]
  · simp only [get_log_stats]
    rw [h2]
  · simp only [get_log_stats]
    rw [h3, length_filter_not_success]
  · simp only [get_log_stats]
    rw [h1, h4]
    by_cases hlen : 0 < entries.length
    · rw [if_pos hlen, if_pos hlen]
    · rw [if_neg hlen, if_neg hlen]
      norm_num [pyRound2]
  · simp only [get_log_stats, statsLoop_filterMap]
  · simp only [get_log_stats, statsLoop, List.map, pyRound2]
    norm_num [round_eq]

/-- C6: for entries appended via the logger and any positive limit,
`get_recent_logs` returns the last min(limit, count) entries in original
insertion order; it returns the empty sequence when the log file does not
exist; and over an arbitrary line list its output is a subsequence of the
parseable entries (unparseable lines are silently skipped, never
reported). -/
theorem c6_recent_logs (entries : List LogEntry) (lines : List (Option LogEntry))
    (limit : Nat) (h : 0 < limit) :
    get_recent_logs (some (entries.map some)) limit
        = entries.drop (entries.length - limit)
    ∧ (get_recent_logs (some (entries.map some)) limit).length = min limit entries.length
    ∧ get_recent_logs none limit = []
    ∧ (get_recent_logs (some lines) limit).Sublist (lines.filterMap id) := by
  have hlim : ¬ limit = 0 := by omega
  have hmain : get_recent_logs (some (entries.map some)) limit
      = entries.drop (entries.length - limit) := by
    unfold get_recent_logs pyTailSlice
    simp only [List.length_map, if_neg hlim]
    by_cases hgt : entries.length > limit
    · rw [if_pos hgt, ← List.map_drop, filterMap_id_map_some]
    · rw [if_neg hgt, filterMap_id_map_some]
      have h0 : entries.length - limit = 0 := by omega
      rw [h0, List.drop_zero]
  refine ⟨hmain, ?_, rfl, ?_⟩
  · rw [hmain, List.length_drop]
    omega
  · simp only [get_recent_logs, pyTailSlice]
    by_cases hgt : lines.length > limit
    · rw [if_pos hgt, if_neg hlim]
      exact (List.drop_sublist _ _).filterMap id
    · rw [if_neg hgt]

/-- Witness for C6 at a concrete log with one unparseable line and
limit 2. -/
theorem c6_recent_logs_witness :
    0 < 2
    ∧ (get_recent_logs
          (some (([{ prompt := "a", response := "", model := "m", duration_ms := 1,
                     success := true, error_reason := none },
                   { prompt := "b", response := "", model := "m", duration_ms := 2,
                     success := true, error_reason := none }] : List LogEntry).map some)) 2
          = ([{ prompt := "a", response := "", model := "m", duration_ms := 1,
                success := true, error_reason := none },
              { prompt := "b", response := "", model := "m", duration_ms := 2,
                success := true, error_reason := none }] : List LogEntry).drop
              (([{ prompt := "a", response := "", model := "m", duration_ms := 1,
                   success := true, error_reason := none },
                 { prompt := "b", response := "", model := "m", duration_ms := 2,
                   success := true, error_reason := none }] : List LogEntry).length - 2)
        ∧ (get_recent_logs
            (some (([{ prompt := "a", response := "", model := "m", duration_ms := 1,
                       success := true, error_reason := none },
                     { prompt := "b", response := "", model := "m", duration_ms := 2,
                       success := true, error_reason := none }] : List LogEntry).map some)) 2).length
            = min 2 ([{ prompt := "a", response := "", model := "m", duration_ms := 1,
                        success := true, error_reason := none },
                      { prompt := "b", response := "", model := "m", duration_ms := 2,
                        success := true, error_reason := none }] : List LogEntry).length
        ∧ get_recent_logs none 2 = []
        ∧ (get_recent_logs
            (some [some { prompt := "a", response := "", model := "m", duration_ms := 1,
                          success := true, error_reason := none },
                   none,
                   some { prompt := "b", response := "", model := "m", duration_ms := 2,
                          success := true, error_reason := none }]) 2).Sublist
            (([some { prompt := "a", response := "", model := "m", duration_ms := 1,
                      success := true, error_reason := none },
               none,
               some { prompt := "b", response := "", model := "m", duration_ms := 2,
                      success := true, error_reason := none }] :
              List (Option LogEntry)).filterMap id)) :=
  ⟨by decide,
   c6_recent_logs
     [{ prompt := "a", response := "", model := "m", duration_ms := 1,
        success := true, error_reason := none },
      { prompt := "b", response := "", model := "m", duration_ms := 2,
        success := true, error_reason := none }]
     [some { prompt := "a", response := "", model := "m", duration_ms := 1,
             success := true, error_reason := none },
      none,
      some { prompt := "b", response := "", model := "m", duration_ms := 2,
             success := true, error_reason := none }]
     2 (by decide)⟩

/-- C2 (amended): both entry points are total functions of the behaviour
(no exception reaches the caller); the non-streaming result fails exactly
on the backend-facing failure behaviours and carries an error reason
exactly then — non-empty provided every caught exception's description is
non-empty; under the same proviso every streamed chunk either succeeds or
carries a non-empty reason; and the chunk sequence ends with a failure
chunk exactly on the streaming failure behaviours (a pre-stream failure,
or a mid-iteration exception before any `done` line).  An exception whose
`str(e)` is empty is passed through as an empty — not human-readable —
reason: see the counterexample. -/
theorem c2_failures_absorbed (svc : OllamaService) (b : Backend) (prompt : String)
    (model : Option String) (h : excDescsNonEmpty b = true) :
    (generate_response svc b prompt model).success = !(isGenFailure b)
    ∧ (generate_response svc b prompt model).error_reason.isSome = isGenFailure b
    ∧ ((generate_response svc b prompt model).success
        || !((generate_response svc b prompt model).error_reason.getD "" == "")) = true
    ∧ (generate_response_stream svc b prompt model).all
        (fun c => c.success || !(c.error_reason.getD "" == "")) = true
    ∧ endsWithFailChunk (generate_response_stream svc b prompt model) = streamFails b := by
  have hpair := h
  simp only [excDescsNonEmpty, Bool.and_eq_true] at hpair
  obtain ⟨hg, hstr⟩ := hpair
  obtain ⟨avail, models, gOut, sOut, dur⟩ := b
  refine ⟨?_, ?_, ?_, ?_, ?_⟩
  · cases avail with
    | false => simp [generate_response, isGenFailure, _get_fallback_response]
    | true =>
      cases gOut with
      | timeout => simp [generate_response, isGenFailure, _get_fallback_response]
      | exc msg => simp [generate_response, isGenFailure, _get_fallback_response]
      | ok status f =>
        by_cases hs : status = 200 <;>
          simp [generate_response, isGenFailure, _get_fallback_response, hs]
  · cases avail with
    | false => simp [generate_response, isGenFailure, _get_fallback_response]
    | true =>
      cases gOut with
      | timeout => simp [generate_response, isGenFailure, _get_fallback_response]
      | exc msg => simp [generate_response, isGenFailure, _get_fallback_response]
      | ok status f =>
        by_cases hs : status = 200 <;>
          simp [generate_response, isGenFailure, _get_fallback_response, hs]
  · cases avail with
    | false => simp [generate_response, _get_fallback_response]
    | true =>
      cases gOut with
      | timeout => simp [generate_response, _get_fallback_response]
      | exc msg =>
        have hmsg : ¬ msg = "" := by simpa [genExcDescNonEmpty] using hg
        simp [generate_response, _get_fallback_response, hmsg]
      | ok status f =>
        by_cases hs : status = 200
        · simp [generate_response, hs]
        · have hne : ("API error: " ++ toString status) ≠ "" :=
            str_append_ne_empty_left _ _ (by decide)
          simp [generate_response, _get_fallback_response, hs, hne]
  · cases avail with
    | false => simp [generate_response_stream, _get_fallback_stream_response]
    | true =>
      cases sOut with
      | timeout => simp [generate_response_stream, _get_fallback_stream_response]
      | exc msg =>
        have hmsg : ¬ msg = "" := by simpa [streamExcDescNonEmpty] using hstr
        simp [generate_response_stream, _get_fallback_stream_response, hmsg]
      | ok status lines intr =>
        by_cases hs : status = 200
        · subst hs
          have hintr : intrDescNonEmpty intr = true := by
            simpa [streamExcDescNonEmpty] using hstr
          simpa [generate_response_stream] using
            processStreamLines_all_ok prompt (resolveModel svc model models) dur
              lines intr "" hintr
        · have hne : ("API error: " ++ toString status) ≠ "" :=
            str_append_ne_empty_left _ _ (by decide)
          simp [generate_response_stream, _get_fallback_stream_response, hs, hne]
  · cases avail with
    | false =>
      simp [generate_response_stream, streamFails, endsWithFailChunk,
        _get_fallback_stream_response]
    | true =>
      cases sOut with
      | timeout =>
        simp [generate_response_stream, streamFails, endsWithFailChunk,
          _get_fallback_stream_response]
      | exc msg =>
        simp [generate_response_stream, streamFails, endsWithFailChunk,
          _get_fallback_stream_response]
      | ok status lines intr =>
        by_cases hs : status = 200
        · subst hs
          have hgenstream : generate_response_stream svc
              ⟨true, models, gOut, StreamOutcome.ok 200 lines intr, dur⟩ prompt model
              = processStreamLines prompt (resolveModel svc model models) dur lines intr "" := by
            simp [generate_response_stream]
          have hsf : streamFails ⟨true, models, gOut, StreamOutcome.ok 200 lines intr, dur⟩
              = (!(lines.any lineIsDone) && intr.isSome) := by
            simp [streamFails]
          rw [hgenstream, hsf]
          cases hany : lines.any lineIsDone with
          | true =>
            obtain ⟨cs, full, hcs⟩ :=
              processStreamLines_done_last prompt (resolveModel svc model models) dur
                lines intr "" hany
            simp [hcs, endsWithFailChunk, List.getLast?_concat, terminalChunk]
          | false =>
            cases intr with
            | none =>
              have hall := processStreamLines_all_success prompt
                (resolveModel svc model models) dur lines ""
              simp [endsWithFail_of_all_success _ hall]
            | some i =>
              obtain ⟨cs, hcs, _⟩ :=
                processStreamLines_interrupt_shape prompt (resolveModel svc model models)
                  dur lines i "" hany
              simp [hcs, endsWithFailChunk, List.getLast?_concat,
                _get_fallback_stream_response]
        · simp [generate_response_stream, streamFails, endsWithFailChunk,
            _get_fallback_stream_response, hs]

/-- Witness for C2 at a concrete unavailable backend whose exception
descriptions are non-empty. -/
theorem c2_failures_absorbed_witness :
    excDescsNonEmpty backendDown = true
    ∧ ((generate_response svcD backendDown "hi" none).success = !(isGenFailure backendDown)
        ∧ (generate_response svcD backendDown "hi" none).error_reason.isSome
            = isGenFailure backendDown
        ∧ ((generate_response svcD backendDown "hi" none).success
            || !((generate_response svcD backendDown "hi" none).error_reason.getD "" == ""))
            = true
        ∧ (generate_response_stream svcD backendDown "hi" none).all
            (fun c => c.success || !(c.error_reason.getD "" == "")) = true
        ∧ endsWithFailChunk (generate_response_stream svcD backendDown "hi" none)
            = streamFails backendDown) :=
  ⟨by decide, c2_failures_absorbed svcD backendDown "hi" none (by decide)⟩

/-- C2 counterexample: a streaming call whose exception has an empty
`str(e)` is converted into a failure chunk whose error reason is the
empty string — present, but not a human-readable reason — refuting the
claim as stated. -/
theorem c2_counterexample :
    generate_response_stream svcD
        { available := true, models := [], genOutcome := GenOutcome.ok 200 (some "ok"),
          streamOutcome := StreamOutcome.exc "", duration_ms := 0 } "hi" none
      = [_get_fallback_stream_response "hi" "llama2" ""]
    ∧ (_get_fallback_stream_response "hi" "llama2" "").success = false
    ∧ (_get_fallback_stream_response "hi" "llama2" "").error_reason = some "" :=
  ⟨by decide, by decide, by decide⟩

/-- C7 (amended): for every prompt and backend state, the result of
`generate_response` has a non-negative duration and a boolean success
flag; when success is false the error reason is present, and it is a
non-empty string provided the description of any caught exception is
non-empty (all other failure reasons are fixed non-empty strings).  An
exception whose description is empty is passed through verbatim — see the
counterexample. -/
theorem c7_result_wellformed (svc : OllamaService) (b : Backend) (prompt : String)
    (model : Option String) (h : genExcDescNonEmpty b = true) :
    0 ≤ (generate_response svc b prompt model).duration_ms
    ∧ ((generate_response svc b prompt model).success = true
        ∨ (generate_response svc b prompt model).success = false)
    ∧ ((generate_response svc b prompt model).success
        || !((generate_response svc b prompt model).error_reason.getD "" == "")) = true := by
  obtain ⟨avail, models, gOut, sOut, dur⟩ := b
  refine ⟨Nat.zero_le _, ?_, ?_⟩
  · cases (generate_response svc ⟨avail, models, gOut, sOut, dur⟩ prompt model).success
    · right; rfl
    · left; rfl
  · cases avail with
    | false => simp [generate_response, _get_fallback_response]
    | true =>
      cases gOut with
      | timeout => simp [generate_response, _get_fallback_response]
      | exc msg =>
        have hmsg : ¬ msg = "" := by simpa [genExcDescNonEmpty] using h
        simp [generate_response, _get_fallback_response, hmsg]
      | ok status f =>
        by_cases hs : status = 200
        · simp [generate_response, hs]
        · have hne : ("API error: " ++ toString status) ≠ "" :=
            str_append_ne_empty_left _ _ (by decide)
          simp [generate_response, _get_fallback_response, hs, hne]

/-- Witness for C7 at a concrete unavailable backend whose exception
description is non-empty. -/
theorem c7_result_wellformed_witness :
    genExcDescNonEmpty backendDown = true
    ∧ (0 ≤ (generate_response svcD backendDown "hi" none).duration_ms
        ∧ ((generate_response svcD backendDown "hi" none).success = true
            ∨ (generate_response svcD backendDown "hi" none).success = false)
        ∧ ((generate_response svcD backendDown "hi" none).success
            || !((generate_response svcD backendDown "hi" none).error_reason.getD "" == "")) = true) :=
  ⟨by decide, c7_result_wellformed svcD backendDown "hi" none (by decide)⟩

/-- C7 counterexample: a backend exception whose description is the empty
string yields success=false with an EMPTY error reason, refuting
"success=false carries a non-empty error_reason". -/
theorem c7_counterexample :
    (generate_response svcD
        { available := true, models := [], genOutcome := GenOutcome.exc "",
          streamOutcome := StreamOutcome.exc "", duration_ms := 0 } "hi" none).success = false
    ∧ (generate_response svcD
        { available := true, models := [], genOutcome := GenOutcome.exc "",
          streamOutcome := StreamOutcome.exc "", duration_ms := 0 } "hi" none).error_reason
        = some "" :=
  ⟨by decide, by decide⟩

/-- C3 (amended): whenever the streaming path terminates — backend
unavailable, timeout, non-200, an exception raised before or during the
200 stream, or a 200 stream containing a parseable `done` line — and no
200-stream line combines a non-empty token with `done=true`, the chunk
sequence is non-empty, contains exactly one `done=true` chunk, and that
chunk is the final one; it carries the full accumulated
(whitespace-trimmed) response, except that when the stream is cut by a
mid-iteration exception the final (fallback) chunk carries the canned
fallback text instead of the accumulated tokens.  A 200 stream with no
`done` line that ends without raising yields a sequence with no `done`
chunk (possibly empty) — see the counterexample. -/
theorem c3_stream_chunk_shape (svc : OllamaService) (b : Backend) (prompt : String)
    (model : Option String) (h1 : streamTerminates b = true)
    (h2 : streamNoTokenDone b = true) :
    generate_response_stream svc b prompt model ≠ []
    ∧ countDone (generate_response_stream svc b prompt model) = 1
    ∧ (∃ c, (generate_response_stream svc b prompt model).getLast? = some c
        ∧ c.done = true
        ∧ c.full_response
            = some (if streamInterrupted b = true
                then selectFallbackText prompt
                else pyStrip (concatTokens (generate_response_stream svc b prompt model)))) := by
  obtain ⟨avail, models, gOut, sOut, dur⟩ := b
  cases avail with
  | false =>
    have hint : streamInterrupted ⟨false, models, gOut, sOut, dur⟩ = false := by
      simp [streamInterrupted]
    have hgen : generate_response_stream svc ⟨false, models, gOut, sOut, dur⟩ prompt model
        = [_get_fallback_stream_response prompt (pyOr model svc.default_model)
            "Ollama service unavailable"] := by
      simp [generate_response_stream]
    refine ⟨by simp [hgen], ?_, ?_⟩
    · rw [hgen]
      simp [countDone, _get_fallback_stream_response]
    · refine ⟨_get_fallback_stream_response prompt (pyOr model svc.default_model)
        "Ollama service unavailable", by rw [hgen]; rfl, rfl, ?_⟩
      simp only [hint, Bool.false_eq_true, if_false]
      rw [hgen]
      exact fallback_chunk_full prompt _ _
  | true =>
    cases sOut with
    | timeout =>
      have hint : streamInterrupted ⟨true, models, gOut, StreamOutcome.timeout, dur⟩
          = false := by
        simp [streamInterrupted]
      have hgen : generate_response_stream svc ⟨true, models, gOut,
          StreamOutcome.timeout, dur⟩ prompt model
          = [_get_fallback_stream_response prompt (resolveModel svc model models)
              "Request timeout"] := by
        simp [generate_response_stream]
      refine ⟨by simp [hgen], ?_, ?_⟩
      · rw [hgen]
        simp [countDone, _get_fallback_stream_response]
      · refine ⟨_get_fallback_stream_response prompt (resolveModel svc model models)
          "Request timeout", by rw [hgen]; rfl, rfl, ?_⟩
        simp only [hint, Bool.false_eq_true, if_false]
        rw [hgen]
        exact fallback_chunk_full prompt _ _
    | exc msg =>
      have hint : streamInterrupted ⟨true, models, gOut, StreamOutcome.exc msg, dur⟩
          = false := by
        simp [streamInterrupted]
      have hgen : generate_response_stream svc ⟨true, models, gOut,
          StreamOutcome.exc msg, dur⟩ prompt model
          = [_get_fallback_stream_response prompt (resolveModel svc model models) msg] := by
        simp [generate_response_stream]
      refine ⟨by simp [hgen], ?_, ?_⟩
      · rw [hgen]
        simp [countDone, _get_fallback_stream_response]
      · refine ⟨_get_fallback_stream_response prompt (resolveModel svc model models) msg,
          by rw [hgen]; rfl, rfl, ?_⟩
        simp only [hint, Bool.false_eq_true, if_false]
        rw [hgen]
        exact fallback_chunk_full prompt _ _
    | ok status lines intr =>
      by_cases hs : status = 200
      · subst hs
        cases hany : lines.any lineIsDone with
        | true =>
          have hint : streamInterrupted ⟨true, models, gOut,
              StreamOutcome.ok 200 lines intr, dur⟩ = false := by
            cases intr <;> simp [streamInterrupted, hany]
          have hntd : lines.all lineNoTokenDone = true := by
            simpa [streamNoTokenDone] using h2
          obtain ⟨cs, hcs, hnd⟩ :=
            processStreamLines_done_shape prompt (resolveModel svc model models) dur
              lines intr "" hany hntd
          have hgen : generate_response_stream svc ⟨true, models, gOut,
              StreamOutcome.ok 200 lines intr, dur⟩ prompt model
              = cs ++ [terminalChunk (resolveModel svc model models) dur
                  (pyStrip ("" ++ concatTokens cs))] := by
            simpa [generate_response_stream] using hcs
          have hfilter : cs.filter (fun c => c.done) = [] := by
            rw [List.filter_eq_nil_iff]
            intro c hc
            simp only [List.all_eq_true] at hnd
            simpa using hnd c hc
          refine ⟨by simp [hgen], ?_, ?_⟩
          · rw [hgen]
            simp [countDone, List.filter_append, hfilter, terminalChunk]
          · refine ⟨terminalChunk (resolveModel svc model models) dur
              (pyStrip ("" ++ concatTokens cs)), ?_, rfl, ?_⟩
            · rw [hgen]
              simp
            · simp only [hint, Bool.false_eq_true, if_false]
              rw [hgen, concatTokens_append, concatTokens_cons, concatTokens_nil]
              simp only [terminalChunk]
              rw [str_append_empty, str_append_empty, str_empty_append]
        | false =>
          cases intr with
          | none =>
            exfalso
            simp [streamTerminates, hany] at h1
          | some i =>
            have hint : streamInterrupted ⟨true, models, gOut,
                StreamOutcome.ok 200 lines (some i), dur⟩ = true := by
              simp [streamInterrupted, hany]
            obtain ⟨cs, hcs, hnd⟩ :=
              processStreamLines_interrupt_shape prompt (resolveModel svc model models)
                dur lines i "" hany
            have hgen : generate_response_stream svc ⟨true, models, gOut,
                StreamOutcome.ok 200 lines (some i), dur⟩ prompt model
                = cs ++ [_get_fallback_stream_response prompt
                    (resolveModel svc model models) (interruptReason i)] := by
              simpa [generate_response_stream] using hcs
            have hfilter : cs.filter (fun c => c.done) = [] := by
              rw [List.filter_eq_nil_iff]
              intro c hc
              simp only [List.all_eq_true] at hnd
              simpa using hnd c hc
            refine ⟨by simp [hgen], ?_, ?_⟩
            · rw [hgen]
              simp [countDone, List.filter_append, hfilter, _get_fallback_stream_response]
            · refine ⟨_get_fallback_stream_response prompt
                (resolveModel svc model models) (interruptReason i), ?_, rfl, ?_⟩
              · rw [hgen]
                simp [List.getLast?_concat]
              · simp [hint, _get_fallback_stream_response]
      · have hint : streamInterrupted ⟨true, models, gOut,
            StreamOutcome.ok status lines intr, dur⟩ = false := by
          cases intr <;> simp [streamInterrupted, hs]
        have hgen : generate_response_stream svc ⟨true, models, gOut,
            StreamOutcome.ok status lines intr, dur⟩ prompt model
            = [_get_fallback_stream_response prompt (resolveModel svc model models)
                ("API error: " ++ toString status)] := by
          simp [generate_response_stream, hs]
        refine ⟨by simp [hgen], ?_, ?_⟩
        · rw [hgen]
          simp [countDone, _get_fallback_stream_response]
        · refine ⟨_get_fallback_stream_response prompt (resolveModel svc model models)
            ("API error: " ++ toString status), by rw [hgen]; rfl, rfl, ?_⟩
          simp only [hint, Bool.false_eq_true, if_false]
          rw [hgen]
          exact fallback_chunk_full prompt _ _

/-- Witness for C3 at a concrete unavailable backend: the sequence is the
single fallback chunk. -/
theorem c3_stream_chunk_shape_witness :
    streamTerminates backendDown = true
    ∧ streamNoTokenDone backendDown = true
    ∧ (generate_response_stream svcD backendDown "hello" none ≠ []
        ∧ countDone (generate_response_stream svcD backendDown "hello" none) = 1
        ∧ (∃ c, (generate_response_stream svcD backendDown "hello" none).getLast? = some c
            ∧ c.done = true
            ∧ c.full_response
                = some (if streamInterrupted backendDown = true
                    then selectFallbackText "hello"
                    else pyStrip (concatTokens (generate_response_stream svcD backendDown
                        "hello" none))))) :=
  ⟨by decide, by decide, c3_stream_chunk_shape svcD backendDown "hello" none
    (by decide) (by decide)⟩

end MiniVault
